import Mathlib

/-!
Verification of prometheus_workshop / example_golang.

A shallow embedding of the demo harness in `example_golang`:

* `server.go`: the response simulator `handleAPI` with its profile table `opts`
  and the recording helper `incResponses`;
* `client.go`: the load oscillator `startClient` with `oscillationFactor`,
  `ignoreRequest`, `incRequests` and the five request loops;
* `main.go`: the package-level `start` time.

Conventions of the embedding.

* `time.Duration` and readings of the monotonic clock are integers counting
  nanoseconds.  Every duration the program forms stays far below `2 ^ 63`
  (base latencies are at most 50ms, sleep intervals at most a few seconds), so
  the arithmetic is not wrapped.
* `float64` values are rationals (every finite `float64` is one) and float
  arithmetic is exact; the two analytic statements about `oscillationFactor`
  are over the reals.  The one place where the program can produce a `float64`
  that is not a number is the division by the oscillation period, which is 0
  when the flag is set so: there `oscillationFactor` is NaN, modelled by `none`.
* The clock, `rand.NormFloat64`, `rand.Float64` and the HTTP transport are
  oracles: the k-th call returns the k-th value of a sequence.  The simulated
  component keeps count of how many values it has consumed.
* The label-indexed Prometheus vectors are logs: `Inc` and `Observe` append the
  label set (and the observed value) to a list.
-/

namespace PrometheusWorkshop

/-! ## Time -/

/-- Go `time.Duration`: a count of nanoseconds. -/
abbrev Duration := Int

/-- A reading of the monotonic clock, in nanoseconds. -/
abbrev Time := Int

/-- Go `time.Millisecond`. -/
def Millisecond : Duration := 1000000

/-- Go `time.Second`. -/
def Second : Duration := 1000 * Millisecond

/-- Go `time.Minute`. -/
def Minute : Duration := 60 * Second

/-- Go conversion of a `float64` to an integer type: the fraction is discarded
(truncation toward zero). -/
def truncate (x : ℚ) : Int := if 0 ≤ x then ⌊x⌋ else ⌈x⌉

/-- Go arithmetic on `int64` wraps around: the representative of `x` in
`[-2^63, 2^63)`. -/
def wrap64 (x : Int) : Int := (x + 2 ^ 63) % 2 ^ 64 - 2 ^ 63

/-- Go `strconv.Itoa`. -/
def Itoa (n : Int) : String := toString n

/-! ## Shared data -/

/-- The label set `{"method", "url", "code"}` of all four metric vectors. -/
structure Labels where
  method : String
  url : String
  code : String
deriving DecidableEq, Repr

/-- The fields of `*http.Request` the program reads: `r.Method` and `r.URL.Path`. -/
structure Request where
  method : String
  path : String
deriving DecidableEq, Repr

/-! ## server.go -/

/-- The struct `responseOpts` of server.go. -/
structure responseOpts where
  baseLatency : Duration
  errorRatio : ℚ
  outageDuration : Duration
deriving DecidableEq, Repr

/-- The table `opts` of server.go, a map from path to a map from method to profile. -/
def opts : List (String × List (String × responseOpts)) :=
  [ ("/api/foo",
      [ ("GET",  { baseLatency := 10 * Millisecond, errorRatio := 5 / 1000,
                   outageDuration := 23 * Second }),
        ("POST", { baseLatency := 20 * Millisecond, errorRatio := 2 / 100,
                   outageDuration := Minute }) ]),
    ("/api/bar",
      [ ("GET",  { baseLatency := 15 * Millisecond, errorRatio := 25 / 10000,
                   outageDuration := 13 * Second }),
        ("POST", { baseLatency := 50 * Millisecond, errorRatio := 1 / 100,
                   outageDuration := 47 * Second }) ]) ]

/-- The oracles a request handler consults. -/
structure ServerOracle where
  /-- Successive readings of the clock (`time.Now`, `time.Since`). -/
  clock : Nat → Time
  /-- Successive results of `rand.NormFloat64`. -/
  normFloat64 : Nat → ℚ
  /-- Successive results of `rand.Float64`. -/
  float64 : Nat → ℚ

/-- Everything a run of `handleAPI` can change. -/
structure Server where
  /-- Number of clock readings taken. -/
  clockReads : Nat
  /-- Number of calls of `rand.NormFloat64`. -/
  normDraws : Nat
  /-- Number of calls of `rand.Float64`. -/
  uniformDraws : Nat
  /-- Arguments of the calls of `time.Sleep`, oldest first. -/
  slept : List Duration
  /-- Calls of `httpResponses.With(labels).Inc()`, oldest first. -/
  httpResponses : List Labels
  /-- Calls of `httpResponseDuration.With(labels).Observe(v)`, oldest first. -/
  httpResponseDuration : List (Labels × ℚ)
  /-- Status written by `http.Error`; `none` while the handler has written nothing. -/
  status : Option Int
deriving DecidableEq, Repr

/-- A handler state in which nothing has happened yet. -/
def Server.fresh : Server :=
  { clockReads := 0, normDraws := 0, uniformDraws := 0, slept := [],
    httpResponses := [], httpResponseDuration := [], status := none }

/-- Go `http.StatusOK`. -/
def StatusOK : Int := 200
/-- Go `http.StatusNotFound`. -/
def StatusNotFound : Int := 404
/-- Go `http.StatusMethodNotAllowed`. -/
def StatusMethodNotAllowed : Int := 405
/-- Go `http.StatusInternalServerError`. -/
def StatusInternalServerError : Int := 500

/-- The status code the client receives: what `http.Error` wrote, and
`200 OK` when the handler returned without writing (net/http default). -/
def Server.responseCode (s : Server) : Int := s.status.getD StatusOK

/-- Go `http.Error(w, msg, code)`: writes the status line. -/
def httpError (s : Server) (code : Int) : Server := { s with status := some code }

/-- The function `incResponses` of server.go. -/
def incResponses (o : ServerOracle) (s : Server) (start : Time) (method : String)
    (code : Int) (url : String) : Server :=
  let duration : ℚ := (((o.clock s.clockReads - start).tdiv Millisecond : Int) : ℚ)
  let codestr := Itoa code
  { s with
    clockReads := s.clockReads + 1
    httpResponses := s.httpResponses ++ [{ method := method, url := url, code := codestr }]
    httpResponseDuration :=
      s.httpResponseDuration ++ [({ method := method, url := url, code := codestr }, duration)] }

/-- The outage test of `handleAPI`: `latencyFactor` and `errorFactor` as set by
`if time.Since(start)%(10*outageDuration) < outageDuration`, given the value of
`time.Since(start)`. -/
def outageFactors (outageDuration since : Duration) : Duration × ℚ :=
  if since.tmod (10 * outageDuration) < outageDuration then (1 * 3, 1 * 10) else (1, 1)

/-- The function `handleAPI` of server.go.  Its `start` is the local
`start := time.Now()` of the first line, which shadows the package-level `start`
of main.go for the whole body. -/
def handleAPI (o : ServerOracle) (s : Server) (r : Request) : Server :=
  let start := o.clock s.clockReads
  let s := { s with clockReads := s.clockReads + 1 }
  match opts.lookup r.path with
  | none =>
    let s := incResponses o s start r.method StatusNotFound ""
    httpError s StatusNotFound
  | some pathOpts =>
    match pathOpts.lookup r.method with
    | none =>
      let s := incResponses o s start r.method StatusMethodNotAllowed r.path
      httpError s StatusMethodNotAllowed
    | some methodOpts =>
      let since := o.clock s.clockReads - start
      let s := { s with clockReads := s.clockReads + 1 }
      let factors := outageFactors methodOpts.outageDuration since
      let latencyFactor := factors.1
      let errorFactor := factors.2
      let z := o.normFloat64 s.normDraws
      let s := { s with normDraws := s.normDraws + 1 }
      let s := { s with slept := s.slept ++
        [(methodOpts.baseLatency + truncate (z * (methodOpts.baseLatency : ℚ) / 10))
          * latencyFactor] }
      let u := o.float64 s.uniformDraws
      let s := { s with uniformDraws := s.uniformDraws + 1 }
      if u ≤ methodOpts.errorRatio * errorFactor then
        let s := incResponses o s start r.method StatusInternalServerError r.path
        httpError s StatusInternalServerError
      else
        s

/-- The two map lookups of `handleAPI`, `opts[r.URL.Path]` then `pathOpts[r.Method]`:
the profile configured for a request, if any. -/
def profile (r : Request) : Option responseOpts :=
  match opts.lookup r.path with
  | none => none
  | some pathOpts => pathOpts.lookup r.method

/-- An oracle whose clock starts at `t0` and advances by `step` per reading, and
whose random sources always return `z` and `u`. -/
def ServerOracle.steady (t0 step : Time) (z u : ℚ) : ServerOracle :=
  { clock := fun k => t0 + step * k, normFloat64 := fun _ => z, float64 := fun _ => u }

/-! ## main.go -/

/-- The package-level state the client reads: `start = time.Now()` of main.go,
taken when the process starts, and the flag `oscillationPeriod` of client.go. -/
structure Globals where
  start : Time
  oscillationPeriod : Duration
deriving DecidableEq, Repr

/-- Go `time.Since(start)` for the package-level `start`: the process uptime at
the clock reading `now`. -/
def Globals.uptime (g : Globals) (now : Time) : Duration := now - g.start

/-! ## client.go -/

/-- The fields of `*http.Response` the client reads: `resp.Request` and
`resp.Status`. -/
structure Response where
  request : Request
  status : String
deriving DecidableEq, Repr

/-- The closure `oscillationFactor` of `startClient`, as a function of the two
converted operands `float64(time.Since(start))` and `float64(*oscillationPeriod)`.
It is generic in the number type, the sine and the constant pi, so that it can
be read over the rationals (with `math.Sin` and `math.Pi` as given) and over the
reals (with `Real.sin` and `Real.pi`).

The result `none` is NaN.  The flag `oscillation-period` is not validated, and with
a period of 0 the `float64` quotient `2*math.Pi*since/0` is an infinity (or NaN when
`since` is 0 as well); `math.Sin` of either is NaN, and so is the sum. -/
def oscillationFactor {α : Type} [Field α] [DecidableEq α] (sin : α → α) (pi : α)
    (since period : α) : Option α :=
  if period = 0 then none else some (2 + sin (sin (2 * pi * since / period)))

/-- The oracles a client loop consults. -/
structure ClientOracle where
  /-- Successive readings of the clock (`time.Now`, `time.Since`). -/
  clock : Nat → Time
  /-- Result `(resp, err)` of the k-th `http.Get` or `http.Post`; `none` is a nil
  pointer, respectively a nil error. -/
  http : Nat → Request → Option Response × Option String
  /-- Go `math.Sin` on `float64`. -/
  sin : ℚ → ℚ
  /-- Go `math.Pi`. -/
  pi : ℚ
  /-- Result of the conversion `time.Duration(x)` for a NaN `x`, which the Go
  specification leaves to the implementation. -/
  nanDuration : Duration

/-- Everything a client loop can change. -/
structure Client where
  /-- Number of clock readings taken. -/
  clockReads : Nat
  /-- Number of HTTP calls issued. -/
  calls : Nat
  /-- Number of response bodies closed. -/
  closed : Nat
  /-- Arguments of the calls of `time.Sleep`, oldest first. -/
  slept : List Duration
  /-- Calls of `httpRequests.With(labels).Inc()`, oldest first. -/
  httpRequests : List Labels
  /-- Calls of `httpRequestDuration.With(labels).Observe(v)`, oldest first. -/
  httpRequestDuration : List (Labels × ℚ)
deriving DecidableEq, Repr

/-- A client state in which nothing has happened yet. -/
def Client.fresh : Client :=
  { clockReads := 0, calls := 0, closed := 0, slept := [], httpRequests := [],
    httpRequestDuration := [] }

/-- A Go run-time panic.  Nothing in the program recovers from one, so a panic in
any goroutine ends the process. -/
inductive Panic where
  /-- Invalid memory address or nil pointer dereference. -/
  | nilDereference
deriving DecidableEq, Repr

/-- The function `incRequests` of client.go. -/
def incRequests (o : ClientOracle) (c : Client) (start : Time) (method : String)
    (code : String) (url : String) : Client :=
  let duration : ℚ := (((o.clock c.clockReads - start).tdiv Millisecond : Int) : ℚ)
  { c with
    clockReads := c.clockReads + 1
    httpRequests := c.httpRequests ++ [{ method := method, url := url, code := code }]
    httpRequestDuration :=
      c.httpRequestDuration ++ [({ method := method, url := url, code := code }, duration)] }

/-- The closure `ignoreRequest` of `startClient`.  Both branches read fields
through `resp`; the arguments of `incRequests` are evaluated before the call, so
with a nil `resp` the panic comes before anything is recorded. -/
def ignoreRequest (o : ClientOracle) (c : Client) (start : Time) (resp : Option Response)
    (err : Option String) : Except Panic Client :=
  match err with
  | some _ =>
    match resp with
    | none => Except.error Panic.nilDereference
    | some resp =>
      Except.ok (incRequests o c start resp.request.method resp.status resp.request.path)
  | none =>
    match resp with
    | none => Except.error Panic.nilDereference
    | some resp =>
      let c := { c with closed := c.closed + 1 }
      Except.ok (incRequests o c start resp.request.method resp.status resp.request.path)

/-- The argument of `time.Sleep` in a client loop,
`time.Duration(interval*oscillationFactor()) * time.Millisecond`, given the
constant `interval` of the loop and the value `f` of `oscillationFactor()`. -/
def sleepInterval (interval f : ℚ) : Duration := truncate (interval * f) * Millisecond

/-- The five loops of `startClient`: the request each issues and the constant in
its sleep expression. -/
def clientLoops : List (Request × ℚ) :=
  [ ({ method := "GET",  path := "/api/foo" }, 10),
    ({ method := "POST", path := "/api/foo" }, 150),
    ({ method := "GET",  path := "/api/bar" }, 20),
    ({ method := "POST", path := "/api/bar" }, 100),
    ({ method := "GET",  path := "/api/nonexistent" }, 500) ]

/-- One pass through the body of a `for` loop of `startClient`, for the loop
`(request, interval)`.  The result is `Except.error` when the goroutine panics,
and then the loop body is not completed.  When `oscillationFactor()` is NaN so is
its product with the constant, and the sleep argument is the converted NaN times
`time.Millisecond` in `int64`. -/
def clientIteration (g : Globals) (o : ClientOracle) (c : Client) (loop : Request × ℚ) :
    Except Panic Client :=
  let start := o.clock c.clockReads
  let c := { c with clockReads := c.clockReads + 1 }
  let result := o.http c.calls loop.1
  let c := { c with calls := c.calls + 1 }
  match ignoreRequest o c start result.1 result.2 with
  | Except.error p => Except.error p
  | Except.ok c =>
    let since := g.uptime (o.clock c.clockReads)
    let c := { c with clockReads := c.clockReads + 1 }
    match oscillationFactor o.sin o.pi (since : ℚ) (g.oscillationPeriod : ℚ) with
    | some f => Except.ok { c with slept := c.slept ++ [sleepInterval loop.2 f] }
    | none => Except.ok { c with slept := c.slept ++ [wrap64 (o.nanDuration * Millisecond)] }


/-- A transport on which every call fails: no response and the error `msg`. -/
def ClientOracle.unreachable (msg : String) : ClientOracle :=
  { clock := fun k => 1000 * k, http := fun _ _ => (none, some msg),
    sin := fun x => x, pi := 22 / 7, nanDuration := -2 ^ 63 }

/-- A transport on which every call is answered `200 OK`. -/
def ClientOracle.reachable : ClientOracle :=
  { clock := fun k => 1000 * k,
    http := fun _ r => (some { request := r, status := "200 OK" }, none),
    sin := fun x => x, pi := 22 / 7, nanDuration := -2 ^ 63 }

/-! ## Lemmas on the profile table -/

theorem Itoa_404 : Itoa StatusNotFound = "404" := by decide
theorem Itoa_405 : Itoa StatusMethodNotAllowed = "405" := by decide
theorem Itoa_500 : Itoa StatusInternalServerError = "500" := by decide

theorem lookup_cons_ne {β : Type} (k k' : String) (v : β) (l : List (String × β)) (h : k ≠ k') :
    List.lookup k ((k', v) :: l) = List.lookup k l := by
  have hb : (k == k') = false := by simpa using h
  simp [List.lookup, hb]

theorem lookup_cons_eq {β : Type} (k : String) (v : β) (l : List (String × β)) :
    List.lookup k ((k, v) :: l) = some v := by
  simp [List.lookup]

theorem opts_lookup_none (path : String) (h1 : path ≠ "/api/foo") (h2 : path ≠ "/api/bar") :
    opts.lookup path = none := by
  rw [opts, lookup_cons_ne _ _ _ _ h1, lookup_cons_ne _ _ _ _ h2]; rfl

theorem opts_lookup_some (path : String) (h : path = "/api/foo" ∨ path = "/api/bar") :
    ∃ pathOpts, opts.lookup path = some pathOpts ∧
      ∀ method, method ≠ "GET" → method ≠ "POST" → pathOpts.lookup method = none := by
  rcases h with h | h
  · subst h
    refine ⟨_, lookup_cons_eq _ _ _, ?_⟩
    intro m h1 h2
    rw [lookup_cons_ne _ _ _ _ h1, lookup_cons_ne _ _ _ _ h2]; rfl
  · subst h
    rw [opts, lookup_cons_ne _ _ _ _ (by decide)]
    refine ⟨_, lookup_cons_eq _ _ _, ?_⟩
    intro m h1 h2
    rw [lookup_cons_ne _ _ _ _ h1, lookup_cons_ne _ _ _ _ h2]; rfl

theorem handleAPI_not_found (o : ServerOracle) (s : Server) (r : Request)
    (h1 : r.path ≠ "/api/foo") (h2 : r.path ≠ "/api/bar") :
    handleAPI o s r =
      { s with
        clockReads := s.clockReads + 2
        httpResponses := s.httpResponses ++ [{ method := r.method, url := "", code := "404" }]
        httpResponseDuration := s.httpResponseDuration ++
          [({ method := r.method, url := "", code := "404" },
            (((o.clock (s.clockReads + 1) - o.clock s.clockReads).tdiv Millisecond : Int) : ℚ))]
        status := some 404 } := by
  simp only [handleAPI, opts_lookup_none r.path h1 h2, incResponses, httpError, Itoa_404]
  rfl

theorem handleAPI_method_not_allowed (o : ServerOracle) (s : Server) (r : Request)
    (hp : r.path = "/api/foo" ∨ r.path = "/api/bar")
    (h1 : r.method ≠ "GET") (h2 : r.method ≠ "POST") :
    handleAPI o s r =
      { s with
        clockReads := s.clockReads + 2
        httpResponses := s.httpResponses ++ [{ method := r.method, url := r.path, code := "405" }]
        httpResponseDuration := s.httpResponseDuration ++
          [({ method := r.method, url := r.path, code := "405" },
            (((o.clock (s.clockReads + 1) - o.clock s.clockReads).tdiv Millisecond : Int) : ℚ))]
        status := some 405 } := by
  obtain ⟨po, hpo, hm⟩ := opts_lookup_some r.path hp
  simp only [handleAPI, hpo, hm r.method h1 h2, incResponses, httpError, Itoa_405]
  rfl


theorem profile_eq (r : Request) (po : List (String × responseOpts))
    (hp : opts.lookup r.path = some po) : profile r = po.lookup r.method := by
  simp only [profile, hp]

theorem opts_lookup_foo : opts.lookup "/api/foo" = some
    [ ("GET",  { baseLatency := 10 * Millisecond, errorRatio := 5 / 1000,
                 outageDuration := 23 * Second }),
      ("POST", { baseLatency := 20 * Millisecond, errorRatio := 2 / 100,
                 outageDuration := Minute }) ] := by
  rw [opts, lookup_cons_eq]

theorem opts_lookup_bar : opts.lookup "/api/bar" = some
    [ ("GET",  { baseLatency := 15 * Millisecond, errorRatio := 25 / 10000,
                 outageDuration := 13 * Second }),
      ("POST", { baseLatency := 50 * Millisecond, errorRatio := 1 / 100,
                 outageDuration := 47 * Second }) ] := by
  rw [opts, lookup_cons_ne _ _ _ _ (by decide), lookup_cons_eq]

theorem lookup_two (m : String) (a b mo : responseOpts)
    (h : List.lookup m [("GET", a), ("POST", b)] = some mo) :
    (m = "GET" ∧ mo = a) ∨ (m = "POST" ∧ mo = b) := by
  by_cases hg : m = "GET"
  · rw [hg, lookup_cons_eq] at h
    exact Or.inl ⟨hg, (Option.some.inj h).symm⟩
  · rw [lookup_cons_ne _ _ _ _ hg] at h
    by_cases hq : m = "POST"
    · rw [hq, lookup_cons_eq] at h
      exact Or.inr ⟨hq, (Option.some.inj h).symm⟩
    · rw [lookup_cons_ne _ _ _ _ hq] at h
      exact absurd h (by simp [List.lookup])

theorem profile_cases (r : Request) (mo : responseOpts) (h : profile r = some mo) :
    (r.path = "/api/foo" ∧ r.method = "GET" ∧
        mo = { baseLatency := 10 * Millisecond, errorRatio := 5 / 1000,
               outageDuration := 23 * Second }) ∨
    (r.path = "/api/foo" ∧ r.method = "POST" ∧
        mo = { baseLatency := 20 * Millisecond, errorRatio := 2 / 100,
               outageDuration := Minute }) ∨
    (r.path = "/api/bar" ∧ r.method = "GET" ∧
        mo = { baseLatency := 15 * Millisecond, errorRatio := 25 / 10000,
               outageDuration := 13 * Second }) ∨
    (r.path = "/api/bar" ∧ r.method = "POST" ∧
        mo = { baseLatency := 50 * Millisecond, errorRatio := 1 / 100,
               outageDuration := 47 * Second }) := by
  by_cases hf : r.path = "/api/foo"
  · rw [profile_eq r _ (hf ▸ opts_lookup_foo)] at h
    rcases lookup_two _ _ _ _ h with ⟨h1, h2⟩ | ⟨h1, h2⟩
    · exact Or.inl ⟨hf, h1, h2⟩
    · exact Or.inr (Or.inl ⟨hf, h1, h2⟩)
  · by_cases hb : r.path = "/api/bar"
    · rw [profile_eq r _ (hb ▸ opts_lookup_bar)] at h
      rcases lookup_two _ _ _ _ h with ⟨h1, h2⟩ | ⟨h1, h2⟩
      · exact Or.inr (Or.inr (Or.inl ⟨hb, h1, h2⟩))
      · exact Or.inr (Or.inr (Or.inr ⟨hb, h1, h2⟩))
    · simp [profile, opts_lookup_none r.path hf hb] at h

theorem profile_outage_pos (r : Request) (mo : responseOpts) (h : profile r = some mo) :
    0 < mo.outageDuration := by
  rcases profile_cases r mo h with h | h | h | h <;> (rw [h.2.2]; decide)

theorem handleAPI_configured (o : ServerOracle) (s : Server) (r : Request) (mo : responseOpts)
    (h : profile r = some mo) :
    handleAPI o s r =
      if o.float64 s.uniformDraws ≤ mo.errorRatio *
          (outageFactors mo.outageDuration
            (o.clock (s.clockReads + 1) - o.clock s.clockReads)).2 then
        { s with
          clockReads := s.clockReads + 3
          normDraws := s.normDraws + 1
          uniformDraws := s.uniformDraws + 1
          slept := s.slept ++
            [(mo.baseLatency +
                truncate (o.normFloat64 s.normDraws * (mo.baseLatency : ℚ) / 10)) *
              (outageFactors mo.outageDuration
                (o.clock (s.clockReads + 1) - o.clock s.clockReads)).1]
          httpResponses := s.httpResponses ++
            [{ method := r.method, url := r.path, code := "500" }]
          httpResponseDuration := s.httpResponseDuration ++
            [({ method := r.method, url := r.path, code := "500" },
              (((o.clock (s.clockReads + 2) - o.clock s.clockReads).tdiv Millisecond : Int) : ℚ))]
          status := some 500 }
      else
        { s with
          clockReads := s.clockReads + 2
          normDraws := s.normDraws + 1
          uniformDraws := s.uniformDraws + 1
          slept := s.slept ++
            [(mo.baseLatency +
                truncate (o.normFloat64 s.normDraws * (mo.baseLatency : ℚ) / 10)) *
              (outageFactors mo.outageDuration
                (o.clock (s.clockReads + 1) - o.clock s.clockReads)).1] } := by
  cases hp : opts.lookup r.path with
  | none => simp [profile, hp] at h
  | some po =>
    rw [profile_eq r po hp] at h
    simp only [handleAPI, hp, h, incResponses, httpError, Itoa_500]
    split <;> rfl


/-! ## Truncation -/

theorem truncate_abs_sub_lt (x : ℚ) : |(truncate x : ℚ) - x| < 1 := by
  unfold truncate
  split
  · rw [abs_lt]
    constructor
    · linarith [Int.lt_floor_add_one x]
    · linarith [Int.floor_le x]
  · rw [abs_lt]
    constructor
    · linarith [Int.le_ceil x]
    · linarith [Int.ceil_lt_add_one x]

theorem truncate_of_nonneg (x : ℚ) (h : 0 ≤ x) : truncate x = ⌊x⌋ := by
  simp [truncate, h]

theorem truncate_intCast (n : Int) : truncate (n : ℚ) = n := by
  unfold truncate
  split <;> simp

theorem outageFactors_cases (od since : Duration) :
    outageFactors od since = (3, 10) ∨ outageFactors od since = (1, 1) := by
  unfold outageFactors
  split
  · left; norm_num
  · right; rfl

theorem outageFactors_zero (od : Duration) (h : 0 < od) : outageFactors od 0 = (3, 10) := by
  unfold outageFactors
  rw [Int.zero_tmod, if_pos h]
  norm_num

/-! ## Claims on server.go -/

/-- C1 (fails on the code): a `GET /api/foo` whose uniform draw is `1/2`, above the
error threshold, gets the implicit `200 OK` while the handler records nothing:
no response counter is incremented and no latency is observed. -/
theorem handleAPI_success_not_recorded :
    (handleAPI (ServerOracle.steady 0 1000 0 (1 / 2)) Server.fresh
        { method := "GET", path := "/api/foo" }).responseCode = 200 ∧
    (handleAPI (ServerOracle.steady 0 1000 0 (1 / 2)) Server.fresh
        { method := "GET", path := "/api/foo" }).httpResponses = [] ∧
    (handleAPI (ServerOracle.steady 0 1000 0 (1 / 2)) Server.fresh
        { method := "GET", path := "/api/foo" }).httpResponseDuration = [] := by
  have hp : profile { method := "GET", path := "/api/foo" } =
      some { baseLatency := 10 * Millisecond, errorRatio := 5 / 1000,
             outageDuration := 23 * Second } := rfl
  rw [handleAPI_configured _ _ _ _ hp]
  have hf : outageFactors (23 * Second)
      ((ServerOracle.steady 0 1000 0 (1 / 2)).clock (Server.fresh.clockReads + 1) -
        (ServerOracle.steady 0 1000 0 (1 / 2)).clock Server.fresh.clockReads) = (3, 10) := by
    unfold outageFactors
    rw [if_pos (by decide)]
    norm_num
  rw [hf]
  have hu : ¬ ((ServerOracle.steady 0 1000 0 (1 / 2)).float64 Server.fresh.uniformDraws ≤
      (5 / 1000 : ℚ) * 10) := by
    simp only [ServerOracle.steady]
    norm_num
  rw [if_neg hu]
  exact ⟨rfl, rfl, rfl⟩


/-- C3 (fails on the code): the process started at time 0 and `GET /api/foo`
(outage duration 23s) is handled with the uptime at the outage test equal to
5 × 23s, one microsecond after the handler was entered.  Keyed to uptime the test
gives the factors (1, 1); the handler, whose `start` is its own entry time, sleeps
for 3 × (10ms + 1ms) and answers 500 on the draw 1/25, which is above the unscaled
error ratio 5/1000 and below the tenfold one. -/
theorem handleAPI_outage_keyed_to_handler_entry :
    Globals.uptime { start := 0, oscillationPeriod := 5 * Minute }
        ((ServerOracle.steady (115 * Second - 1000) 1000 1 (1 / 25)).clock 1) =
      5 * (23 * Second) ∧
    outageFactors (23 * Second)
        (Globals.uptime { start := 0, oscillationPeriod := 5 * Minute }
          ((ServerOracle.steady (115 * Second - 1000) 1000 1 (1 / 25)).clock 1)) = (1, 1) ∧
    (handleAPI (ServerOracle.steady (115 * Second - 1000) 1000 1 (1 / 25)) Server.fresh
        { method := "GET", path := "/api/foo" }).slept = [(10 * Millisecond + Millisecond) * 3] ∧
    (handleAPI (ServerOracle.steady (115 * Second - 1000) 1000 1 (1 / 25)) Server.fresh
        { method := "GET", path := "/api/foo" }).responseCode = 500 ∧
    ¬ ((1 / 25 : ℚ) ≤ 5 / 1000 * 1) := by
  have hp : profile { method := "GET", path := "/api/foo" } =
      some { baseLatency := 10 * Millisecond, errorRatio := 5 / 1000,
             outageDuration := 23 * Second } := rfl
  rw [handleAPI_configured _ _ _ _ hp]
  have hf : outageFactors (23 * Second)
      ((ServerOracle.steady (115 * Second - 1000) 1000 1 (1 / 25)).clock
          (Server.fresh.clockReads + 1) -
        (ServerOracle.steady (115 * Second - 1000) 1000 1 (1 / 25)).clock
          Server.fresh.clockReads) = (3, 10) := by
    unfold outageFactors
    rw [if_pos (by decide)]
    norm_num
  rw [hf]
  have hu : (ServerOracle.steady (115 * Second - 1000) 1000 1 (1 / 25)).float64
      Server.fresh.uniformDraws ≤ (5 / 1000 : ℚ) * 10 := by
    simp only [ServerOracle.steady]
    norm_num
  rw [if_pos hu]
  have ht : truncate ((ServerOracle.steady (115 * Second - 1000) 1000 1 (1 / 25)).normFloat64
      Server.fresh.normDraws * ((10 * Millisecond : Duration) : ℚ) / 10) = Millisecond := by
    have : (ServerOracle.steady (115 * Second - 1000) 1000 1 (1 / 25)).normFloat64
        Server.fresh.normDraws * ((10 * Millisecond : Duration) : ℚ) / 10 =
        ((Millisecond : Int) : ℚ) := by
      simp only [ServerOracle.steady]
      push_cast
      ring
    rw [this, truncate_intCast]
  refine ⟨by decide, ?_, ?_, rfl, by norm_num⟩
  · unfold outageFactors
    rw [if_neg (by decide)]
  · simp only [ht]
    rfl


/-- C4: for every configured profile, a request for which the elapsed time at the
outage test is 0 (the handler's `time.Since(start)` is 0, or the process uptime is 0
on a clock that does not run backwards) is inside the outage window: the outage
duration is positive, `0 mod (10 × outageDuration) = 0`, and `handleAPI` applies
latency factor 3 (it sleeps for 3 × (base latency + noise)) and error factor 10 (it
records a 500 exactly when the uniform draw is at most 10 × error ratio). -/
theorem handleAPI_outage_at_elapsed_zero (o : ServerOracle) (s : Server) (r : Request)
    (mo : responseOpts) (h : profile r = some mo)
    (h0 : o.clock (s.clockReads + 1) - o.clock s.clockReads = 0 ∨
      ∃ g : Globals, g.start ≤ o.clock s.clockReads ∧
        o.clock s.clockReads ≤ o.clock (s.clockReads + 1) ∧
        g.uptime (o.clock (s.clockReads + 1)) = 0) :
    0 < mo.outageDuration ∧
    Int.tmod 0 (10 * mo.outageDuration) = 0 ∧
    outageFactors mo.outageDuration (o.clock (s.clockReads + 1) - o.clock s.clockReads)
      = (3, 10) ∧
    (handleAPI o s r).slept = s.slept ++
      [(mo.baseLatency + truncate (o.normFloat64 s.normDraws * (mo.baseLatency : ℚ) / 10)) * 3] ∧
    ((handleAPI o s r).httpResponses = s.httpResponses ++
        [{ method := r.method, url := r.path, code := "500" }] ↔
      o.float64 s.uniformDraws ≤ mo.errorRatio * 10) := by
  have hpos := profile_outage_pos r mo h
  have hz : o.clock (s.clockReads + 1) - o.clock s.clockReads = 0 := by
    rcases h0 with h0 | ⟨g, h1, h2, h3⟩
    · exact h0
    · unfold Globals.uptime at h3
      linarith
  have hf := outageFactors_zero mo.outageDuration hpos
  rw [handleAPI_configured o s r mo h, hz, hf]
  refine ⟨hpos, Int.zero_tmod _, rfl, ?_, ?_⟩
  · split <;> rfl
  · split
    · rename_i hu
      simp [hu]
    · rename_i hu
      simp [hu]

/-- Witness of C4: `GET /api/foo` on a clock that reads 0 twice. -/
theorem handleAPI_outage_at_elapsed_zero_witness :
    profile { method := "GET", path := "/api/foo" } =
      some { baseLatency := 10 * Millisecond, errorRatio := 5 / 1000,
             outageDuration := 23 * Second } ∧
    (outageFactors (23 * Second)
        ((ServerOracle.steady 0 0 1 (1 / 2)).clock (Server.fresh.clockReads + 1) -
          (ServerOracle.steady 0 0 1 (1 / 2)).clock Server.fresh.clockReads) = (3, 10)) :=
  ⟨rfl, (handleAPI_outage_at_elapsed_zero (ServerOracle.steady 0 0 1 (1 / 2)) Server.fresh
    { method := "GET", path := "/api/foo" }
    { baseLatency := 10 * Millisecond, errorRatio := 5 / 1000, outageDuration := 23 * Second }
    rfl (Or.inl (by decide))).2.2.1⟩

/-- C5: routing misses are answered and recorded deterministically.  A request whose
path is neither /api/foo nor /api/bar gets 404 and one record with the request
method, url "" and code "404"; a request to /api/foo or /api/bar whose method is
neither GET nor POST gets 405 and one record with url = path and code "405".  In both
cases the handler does not sleep and draws no random number: apart from the two clock
readings, the record and the status the state is unchanged. -/
theorem handleAPI_routing_miss (o : ServerOracle) (s : Server) (r : Request) :
    (r.path ≠ "/api/foo" → r.path ≠ "/api/bar" →
      handleAPI o s r =
        { s with
          clockReads := s.clockReads + 2
          httpResponses := s.httpResponses ++ [{ method := r.method, url := "", code := "404" }]
          httpResponseDuration := s.httpResponseDuration ++
            [({ method := r.method, url := "", code := "404" },
              (((o.clock (s.clockReads + 1) - o.clock s.clockReads).tdiv Millisecond : Int) : ℚ))]
          status := some 404 }) ∧
    (r.path = "/api/foo" ∨ r.path = "/api/bar" → r.method ≠ "GET" → r.method ≠ "POST" →
      handleAPI o s r =
        { s with
          clockReads := s.clockReads + 2
          httpResponses := s.httpResponses ++
            [{ method := r.method, url := r.path, code := "405" }]
          httpResponseDuration := s.httpResponseDuration ++
            [({ method := r.method, url := r.path, code := "405" },
              (((o.clock (s.clockReads + 1) - o.clock s.clockReads).tdiv Millisecond : Int) : ℚ))]
          status := some 405 }) :=
  ⟨handleAPI_not_found o s r, handleAPI_method_not_allowed o s r⟩

/-- Witness of C5: `GET /api/baz` and `DELETE /api/foo`. -/
theorem handleAPI_routing_miss_witness :
    ((handleAPI (ServerOracle.steady 0 1000 0 0) Server.fresh
        { method := "GET", path := "/api/baz" }).httpResponses =
      [{ method := "GET", url := "", code := "404" }]) ∧
    ((handleAPI (ServerOracle.steady 0 1000 0 0) Server.fresh
        { method := "DELETE", path := "/api/foo" }).httpResponses =
      [{ method := "DELETE", url := "/api/foo", code := "405" }]) :=
  ⟨by
    rw [(handleAPI_routing_miss (ServerOracle.steady 0 1000 0 0) Server.fresh
      { method := "GET", path := "/api/baz" }).1 (by decide) (by decide)]
    rfl,
   by
    rw [(handleAPI_routing_miss (ServerOracle.steady 0 1000 0 0) Server.fresh
      { method := "DELETE", path := "/api/foo" }).2 (Or.inl rfl) (by decide) (by decide)]
    rfl⟩

/-- C6: for every configured profile, whatever the outage state (error factor 1 or
10) and the uniform draw, `handleAPI` responds 500 and records one 500 outcome if and
only if the draw is at most `errorRatio × errorFactor`. -/
theorem handleAPI_error_iff (o : ServerOracle) (s : Server) (r : Request)
    (mo : responseOpts) (h : profile r = some mo) :
    ((outageFactors mo.outageDuration
        (o.clock (s.clockReads + 1) - o.clock s.clockReads)).2 = 1 ∨
      (outageFactors mo.outageDuration
        (o.clock (s.clockReads + 1) - o.clock s.clockReads)).2 = 10) ∧
    (((handleAPI o s r).responseCode = 500 ∧
        (handleAPI o s r).httpResponses = s.httpResponses ++
          [{ method := r.method, url := r.path, code := "500" }] ∧
        (handleAPI o s r).httpResponseDuration = s.httpResponseDuration ++
          [({ method := r.method, url := r.path, code := "500" },
            (((o.clock (s.clockReads + 2) - o.clock s.clockReads).tdiv Millisecond : Int) : ℚ))]) ↔
      o.float64 s.uniformDraws ≤ mo.errorRatio *
        (outageFactors mo.outageDuration
          (o.clock (s.clockReads + 1) - o.clock s.clockReads)).2) := by
  constructor
  · rcases outageFactors_cases mo.outageDuration
      (o.clock (s.clockReads + 1) - o.clock s.clockReads) with hf | hf
    · right; rw [hf]
    · left; rw [hf]
  · rw [handleAPI_configured o s r mo h]
    split
    · rename_i hu
      exact ⟨fun _ => hu, fun _ => ⟨rfl, rfl, rfl⟩⟩
    · rename_i hu
      simp [hu]

/-- Witness of C6: `POST /api/bar` with the draw 1/2. -/
theorem handleAPI_error_iff_witness :
    profile { method := "POST", path := "/api/bar" } =
      some { baseLatency := 50 * Millisecond, errorRatio := 1 / 100,
             outageDuration := 47 * Second } ∧
    ((outageFactors (47 * Second)
        ((ServerOracle.steady 0 1000 0 (1 / 2)).clock (Server.fresh.clockReads + 1) -
          (ServerOracle.steady 0 1000 0 (1 / 2)).clock Server.fresh.clockReads)).2 = 1 ∨
      (outageFactors (47 * Second)
        ((ServerOracle.steady 0 1000 0 (1 / 2)).clock (Server.fresh.clockReads + 1) -
          (ServerOracle.steady 0 1000 0 (1 / 2)).clock Server.fresh.clockReads)).2 = 10) :=
  ⟨rfl, (handleAPI_error_iff (ServerOracle.steady 0 1000 0 (1 / 2)) Server.fresh
    { method := "POST", path := "/api/bar" }
    { baseLatency := 50 * Millisecond, errorRatio := 1 / 100, outageDuration := 47 * Second }
    rfl).1⟩


/-- C10 as stated fails: `GET /api/foo` (base latency 10ms) inside the outage window
(latency factor 3) with the normal draw z = 1 sleeps for 33ms, while
`latencyFactor × baseLatency + z × baseLatency / 10` is 31ms; the two differ by far
more than a nanosecond. -/
theorem handleAPI_latency_noise_unscaled_counterexample :
    (outageFactors (23 * Second)
        ((ServerOracle.steady 0 1000 1 (1 / 2)).clock (Server.fresh.clockReads + 1) -
          (ServerOracle.steady 0 1000 1 (1 / 2)).clock Server.fresh.clockReads)).1 = 3 ∧
    (handleAPI (ServerOracle.steady 0 1000 1 (1 / 2)) Server.fresh
        { method := "GET", path := "/api/foo" }).slept = [33 * Millisecond] ∧
    ¬ (|(((33 * Millisecond : Duration) : ℚ)) -
        (3 * ((10 * Millisecond : Duration) : ℚ) +
          (ServerOracle.steady 0 1000 1 (1 / 2)).normFloat64 Server.fresh.normDraws *
            ((10 * Millisecond : Duration) : ℚ) / 10)| < 1) := by
  have hp : profile { method := "GET", path := "/api/foo" } =
      some { baseLatency := 10 * Millisecond, errorRatio := 5 / 1000,
             outageDuration := 23 * Second } := rfl
  have hf : outageFactors (23 * Second)
      ((ServerOracle.steady 0 1000 1 (1 / 2)).clock (Server.fresh.clockReads + 1) -
        (ServerOracle.steady 0 1000 1 (1 / 2)).clock Server.fresh.clockReads) = (3, 10) := by
    unfold outageFactors
    rw [if_pos (by decide)]
    norm_num
  have ht : truncate ((ServerOracle.steady 0 1000 1 (1 / 2)).normFloat64
      Server.fresh.normDraws * ((10 * Millisecond : Duration) : ℚ) / 10) = Millisecond := by
    have : (ServerOracle.steady 0 1000 1 (1 / 2)).normFloat64
        Server.fresh.normDraws * ((10 * Millisecond : Duration) : ℚ) / 10 =
        ((Millisecond : Int) : ℚ) := by
      simp only [ServerOracle.steady]
      push_cast
      ring
    rw [this, truncate_intCast]
  refine ⟨by rw [hf], ?_, ?_⟩
  · rw [handleAPI_configured _ _ _ _ hp, hf]
    simp only [ht]
    split <;> rfl
  · simp only [ServerOracle.steady, Millisecond]
    norm_num

/-- C10 amended: for every configured profile, outage state and normal draw z,
`handleAPI` sleeps once, for `(baseLatency + trunc(z × baseLatency / 10)) ×
latencyFactor` with `latencyFactor` 1 or 3.  The noise is scaled by the outage factor
together with the base latency: the sleep is within `latencyFactor` nanoseconds of
`latencyFactor × (baseLatency + z × baseLatency / 10)`. -/
theorem handleAPI_latency_scaled (o : ServerOracle) (s : Server) (r : Request)
    (mo : responseOpts) (h : profile r = some mo) :
    ((outageFactors mo.outageDuration
        (o.clock (s.clockReads + 1) - o.clock s.clockReads)).1 = 1 ∨
      (outageFactors mo.outageDuration
        (o.clock (s.clockReads + 1) - o.clock s.clockReads)).1 = 3) ∧
    (handleAPI o s r).slept = s.slept ++
      [(mo.baseLatency + truncate (o.normFloat64 s.normDraws * (mo.baseLatency : ℚ) / 10)) *
        (outageFactors mo.outageDuration
          (o.clock (s.clockReads + 1) - o.clock s.clockReads)).1] ∧
    |((((mo.baseLatency + truncate (o.normFloat64 s.normDraws * (mo.baseLatency : ℚ) / 10)) *
        (outageFactors mo.outageDuration
          (o.clock (s.clockReads + 1) - o.clock s.clockReads)).1 : Duration)) : ℚ) -
      (((outageFactors mo.outageDuration
          (o.clock (s.clockReads + 1) - o.clock s.clockReads)).1 : Duration) : ℚ) *
        ((mo.baseLatency : ℚ) + o.normFloat64 s.normDraws * (mo.baseLatency : ℚ) / 10)| <
      (((outageFactors mo.outageDuration
          (o.clock (s.clockReads + 1) - o.clock s.clockReads)).1 : Duration) : ℚ) := by
  have ht := truncate_abs_sub_lt (o.normFloat64 s.normDraws * (mo.baseLatency : ℚ) / 10)
  rw [abs_lt] at ht
  refine ⟨?_, ?_, ?_⟩
  · rcases outageFactors_cases mo.outageDuration
      (o.clock (s.clockReads + 1) - o.clock s.clockReads) with hf | hf
    · right; rw [hf]
    · left; rw [hf]
  · rw [handleAPI_configured o s r mo h]
    split <;> rfl
  · rcases outageFactors_cases mo.outageDuration
      (o.clock (s.clockReads + 1) - o.clock s.clockReads) with hf | hf
    · rw [hf, abs_lt]
      push_cast
      constructor <;> linarith [ht.1, ht.2]
    · rw [hf, abs_lt]
      push_cast
      constructor <;> linarith [ht.1, ht.2]

/-- Witness of the amended C10: `GET /api/bar` with the normal draw 1/3. -/
theorem handleAPI_latency_scaled_witness :
    profile { method := "GET", path := "/api/bar" } =
      some { baseLatency := 15 * Millisecond, errorRatio := 25 / 10000,
             outageDuration := 13 * Second } ∧
    (handleAPI (ServerOracle.steady 0 1000 (1 / 3) (1 / 2)) Server.fresh
        { method := "GET", path := "/api/bar" }).slept = Server.fresh.slept ++
      [(15 * Millisecond + truncate ((ServerOracle.steady 0 1000 (1 / 3) (1 / 2)).normFloat64
            Server.fresh.normDraws * ((15 * Millisecond : Duration) : ℚ) / 10)) *
        (outageFactors (13 * Second)
          ((ServerOracle.steady 0 1000 (1 / 3) (1 / 2)).clock (Server.fresh.clockReads + 1) -
            (ServerOracle.steady 0 1000 (1 / 3) (1 / 2)).clock Server.fresh.clockReads)).1] :=
  ⟨rfl, (handleAPI_latency_scaled (ServerOracle.steady 0 1000 (1 / 3) (1 / 2)) Server.fresh
    { method := "GET", path := "/api/bar" }
    { baseLatency := 15 * Millisecond, errorRatio := 25 / 10000, outageDuration := 13 * Second }
    rfl).2.1⟩


/-! ## Claims on client.go -/

/-- C2 (fails on the code): on a transport failure (`resp` nil, `err` non-nil)
`ignoreRequest` dereferences the nil `resp` while evaluating the arguments of
`incRequests` and panics: nothing is recorded, and the loop iteration ends in the
panic instead of reaching its sleep. -/
theorem ignoreRequest_transport_failure_panics :
    (∀ (o : ClientOracle) (c : Client) (start : Time) (e : String),
      ignoreRequest o c start none (some e) = Except.error Panic.nilDereference) ∧
    clientIteration { start := 0, oscillationPeriod := 5 * Minute }
        (ClientOracle.unreachable "connection refused") Client.fresh
        ({ method := "GET", path := "/api/foo" }, 10) =
      Except.error Panic.nilDereference :=
  ⟨fun _ _ _ _ => rfl, rfl⟩

/-- C9 as stated fails: in the `GET /api/foo` loop (constant 10) the oscillation
factor 71/25 = 2.84 gives a sleep of 28ms, not 10ms × 2.84 = 28.4ms. -/
theorem sleepInterval_counterexample :
    ((10 : ℚ) ∈ clientLoops.map Prod.snd) ∧
    sleepInterval 10 (71 / 25) = 28 * Millisecond ∧
    ((sleepInterval 10 (71 / 25) : Duration) : ℚ) ≠
      (((10 * Millisecond : Duration) : ℚ)) * (71 / 25) := by
  have h : sleepInterval 10 (71 / 25) = 28 * Millisecond := by
    unfold sleepInterval
    rw [truncate_of_nonneg _ (by norm_num)]
    have : ⌊(10 : ℚ) * (71 / 25)⌋ = 28 := by
      rw [Int.floor_eq_iff]
      norm_num
    rw [this]
  refine ⟨by simp [clientLoops], h, ?_⟩
  rw [h]
  simp only [Millisecond]
  norm_num


theorem clientIteration_slept (g : Globals) (o : ClientOracle) (c : Client) (loop : Request × ℚ)
    (resp : Response) (hr : (o.http c.calls loop.1).1 = some resp) :
    ∃ c', clientIteration g o c loop = Except.ok c' ∧
      (∀ f : ℚ,
        oscillationFactor o.sin o.pi ((g.uptime (o.clock (c.clockReads + 2)) : Duration) : ℚ)
          (g.oscillationPeriod : ℚ) = some f →
        c'.slept = c.slept ++ [sleepInterval loop.2 f]) ∧
      (oscillationFactor o.sin o.pi ((g.uptime (o.clock (c.clockReads + 2)) : Duration) : ℚ)
          (g.oscillationPeriod : ℚ) = none →
        c'.slept = c.slept ++ [wrap64 (o.nanDuration * Millisecond)]) := by
  have hs : ∀ e : Option String, ∃ c0 : Client,
      ignoreRequest o { c with clockReads := c.clockReads + 1, calls := c.calls + 1 }
        (o.clock c.clockReads) (some resp) e = Except.ok c0 ∧
      c0.clockReads = c.clockReads + 2 ∧ c0.slept = c.slept := by
    intro e
    cases e with
    | none => exact ⟨_, rfl, rfl, rfl⟩
    | some e => exact ⟨_, rfl, rfl, rfl⟩
  obtain ⟨c0, h0, hk, hsl⟩ := hs (o.http c.calls loop.1).2
  unfold clientIteration
  simp only [hr, h0, hk]
  cases hf : oscillationFactor o.sin o.pi
      ((g.uptime (o.clock (c.clockReads + 2)) : Duration) : ℚ) (g.oscillationPeriod : ℚ) with
  | none => exact ⟨_, rfl, fun f h => absurd h (by simp), fun _ => by simp [hsl]⟩
  | some f0 =>
    exact ⟨_, rfl, fun f h => by simp [hsl, ← Option.some.inj h], fun h => absurd h (by simp)⟩

theorem oscillationFactor_of_ne_zero {α : Type} [Field α] [DecidableEq α] (sin : α → α)
    (pi since period : α) (h : period ≠ 0) :
    oscillationFactor sin pi since period = some (2 + sin (sin (2 * pi * since / period))) := by
  unfold oscillationFactor
  rw [if_neg h]

theorem oscillationFactor_zero {α : Type} [Field α] [DecidableEq α] (sin : α → α)
    (pi since : α) : oscillationFactor sin pi since 0 = none := by
  unfold oscillationFactor
  rw [if_pos rfl]

/-- C9 amended: for each of the five client loops (constants 10, 150, 20, 100, 500)
an iteration whose request returns a response sleeps for
`sleepInterval c f = trunc(c × f)` whole milliseconds, `f` being the value of the
oscillation factor (which exists whenever the oscillation period is not 0).  For
every `f` this is less than a millisecond away from `c ms × f`, and for `f ≥ 0` it
does not exceed it. -/
theorem clientIteration_sleep_truncated (g : Globals) (o : ClientOracle) (c : Client)
    (loop : Request × ℚ) (resp : Response) (hl : loop ∈ clientLoops)
    (hr : (o.http c.calls loop.1).1 = some resp) :
    (loop.2 = 10 ∨ loop.2 = 150 ∨ loop.2 = 20 ∨ loop.2 = 100 ∨ loop.2 = 500) ∧
    (∃ c', clientIteration g o c loop = Except.ok c' ∧
      (∀ f : ℚ,
        oscillationFactor o.sin o.pi ((g.uptime (o.clock (c.clockReads + 2)) : Duration) : ℚ)
          (g.oscillationPeriod : ℚ) = some f →
        c'.slept = c.slept ++ [sleepInterval loop.2 f]) ∧
      (g.oscillationPeriod ≠ 0 →
        c'.slept = c.slept ++ [sleepInterval loop.2
          (2 + o.sin (o.sin (2 * o.pi *
            ((g.uptime (o.clock (c.clockReads + 2)) : Duration) : ℚ) /
              (g.oscillationPeriod : ℚ))))])) ∧
    (∀ f : ℚ,
      sleepInterval loop.2 f = truncate (loop.2 * f) * Millisecond ∧
      |((sleepInterval loop.2 f : Duration) : ℚ) - loop.2 * ((Millisecond : Duration) : ℚ) * f| <
        ((Millisecond : Duration) : ℚ) ∧
      (0 ≤ f → ((sleepInterval loop.2 f : Duration) : ℚ) ≤
        loop.2 * ((Millisecond : Duration) : ℚ) * f)) := by
  refine ⟨?_, ?_, ?_⟩
  · simp only [clientLoops, List.mem_cons, List.mem_singleton, List.not_mem_nil, or_false] at hl
    rcases hl with h | h | h | h | h <;> rw [h] <;> simp
  · obtain ⟨c', hc, hsome, _⟩ := clientIteration_slept g o c loop resp hr
    refine ⟨c', hc, hsome, fun hp => hsome _ ?_⟩
    exact oscillationFactor_of_ne_zero _ _ _ _ (by exact_mod_cast hp)
  · intro f
    have hi : 0 ≤ loop.2 := by
      simp only [clientLoops, List.mem_cons, List.mem_singleton, List.not_mem_nil, or_false] at hl
      rcases hl with h | h | h | h | h <;> rw [h] <;> norm_num
    have ht := truncate_abs_sub_lt (loop.2 * f)
    rw [abs_lt] at ht
    have hm : ((Millisecond : Duration) : ℚ) = 1000000 := by simp [Millisecond]
    refine ⟨rfl, ?_, ?_⟩
    · unfold sleepInterval
      rw [abs_lt]
      push_cast
      rw [hm]
      constructor <;> nlinarith [ht.1, ht.2]
    · intro hf
      unfold sleepInterval
      rw [truncate_of_nonneg _ (mul_nonneg hi hf)]
      push_cast
      rw [hm]
      nlinarith [Int.floor_le (loop.2 * f)]

/-- Witness of the amended C9: the `GET /api/foo` loop against a server that answers. -/
theorem clientIteration_sleep_truncated_witness :
    (({ method := "GET", path := "/api/foo" }, 10) : Request × ℚ) ∈ clientLoops ∧
    (ClientOracle.reachable.http Client.fresh.calls
        { method := "GET", path := "/api/foo" }).1 =
      some { request := { method := "GET", path := "/api/foo" }, status := "200 OK" } ∧
    (∀ f : ℚ, sleepInterval 10 f = truncate (10 * f) * Millisecond ∧
      |((sleepInterval 10 f : Duration) : ℚ) - 10 * ((Millisecond : Duration) : ℚ) * f| <
        ((Millisecond : Duration) : ℚ) ∧
      (0 ≤ f → ((sleepInterval 10 f : Duration) : ℚ) ≤
        10 * ((Millisecond : Duration) : ℚ) * f)) :=
  ⟨by simp [clientLoops], rfl,
    (clientIteration_sleep_truncated { start := 0, oscillationPeriod := 5 * Minute }
      ClientOracle.reachable Client.fresh ({ method := "GET", path := "/api/foo" }, 10)
      { request := { method := "GET", path := "/api/foo" }, status := "200 OK" }
      (by simp [clientLoops]) rfl).2.2⟩

/-! ## Claims on the oscillation factor, over the reals -/

theorem sin_sin_bounds (x : ℝ) :
    -Real.sin 1 ≤ Real.sin (Real.sin x) ∧ Real.sin (Real.sin x) ≤ Real.sin 1 := by
  have hpi : (1 : ℝ) ≤ Real.pi / 2 := by linarith [Real.pi_gt_three]
  have h1 := Real.neg_one_le_sin x
  have h2 := Real.sin_le_one x
  constructor
  · rw [← Real.sin_neg]
    exact Real.sin_le_sin_of_le_of_le_pi_div_two (by linarith) (by linarith) h1
  · exact Real.sin_le_sin_of_le_of_le_pi_div_two (by linarith) hpi h2

/-- C7: over the reals, the oscillation factor `2 + sin(sin(2π·t/period))` is
periodic with the configured period: for every elapsed time `t` and every positive
`period`, the factor at `t + period` equals the factor at `t`, and it is the number
given by the formula. -/
theorem oscillationFactor_periodic (t period : ℝ) (h : 0 < period) :
    oscillationFactor Real.sin Real.pi (t + period) period =
      oscillationFactor Real.sin Real.pi t period ∧
    oscillationFactor Real.sin Real.pi t period =
      some (2 + Real.sin (Real.sin (2 * Real.pi * t / period))) := by
  have hx : 2 * Real.pi * (t + period) / period = 2 * Real.pi * t / period + 2 * Real.pi := by
    field_simp
    ring
  rw [oscillationFactor_of_ne_zero _ _ _ _ h.ne', oscillationFactor_of_ne_zero _ _ _ _ h.ne',
    hx, Real.sin_add_two_pi]
  exact ⟨rfl, rfl⟩

/-- Witness of C7: period 1 and elapsed time 0. -/
theorem oscillationFactor_periodic_witness :
    (0 : ℝ) < 1 ∧
    oscillationFactor Real.sin Real.pi (0 + 1) 1 = oscillationFactor Real.sin Real.pi 0 1 :=
  ⟨one_pos, (oscillationFactor_periodic 0 1 one_pos).1⟩

theorem sin_one_enclosure : (84 / 100 : ℝ) < Real.sin 1 ∧ Real.sin 1 < 85 / 100 := by
  have hb := Complex.exp_bound (x := Complex.I) (by simp) (n := 7) (by norm_num)
  have him := Complex.abs_im_le_abs
    (Complex.exp Complex.I - ∑ m ∈ Finset.range 7, Complex.I ^ m / (m.factorial : ℂ))
  have hs : (∑ m ∈ Finset.range 7, Complex.I ^ m / (m.factorial : ℂ)).im = 101 / 120 := by
    simp only [Finset.sum_range_succ, Finset.range_zero, Finset.sum_empty, Nat.factorial]
    have h2 : Complex.I ^ 2 = -1 := Complex.I_sq
    have h3 : Complex.I ^ 3 = -Complex.I := by rw [pow_succ, h2]; ring
    have h4 : Complex.I ^ 4 = 1 := by rw [pow_succ, h3]; ring_nf; rw [h2]; ring
    have h5 : Complex.I ^ 5 = Complex.I := by rw [pow_succ, h4]; ring
    have h6 : Complex.I ^ 6 = -1 := by rw [pow_succ, h5]; ring_nf; rw [h2]
    rw [h2, h3, h4, h5, h6]
    simp [Complex.div_im, Complex.normSq]
    norm_num
  have he : (Complex.exp Complex.I).im = Real.sin 1 := by
    have := Complex.exp_ofReal_mul_I_im 1
    simpa using this
  rw [Complex.sub_im, hs, he] at him
  have hle := le_trans him hb
  simp only [map_pow, Complex.abs_I, one_pow, one_mul, Nat.factorial] at hle
  rw [abs_le] at hle
  norm_num at hle
  constructor <;> linarith [hle.1, hle.2]

/-- C8 as stated fails: with the period 0, which the flag accepts, the oscillation
factor at elapsed time 1 is NaN: no number, and so none in `[2 − sin 1, 2 + sin 1]`. -/
theorem oscillationFactor_period_zero_counterexample :
    oscillationFactor Real.sin Real.pi 1 0 = none ∧
    ¬ ∃ f : ℝ, oscillationFactor Real.sin Real.pi 1 0 = some f ∧
      2 - Real.sin 1 ≤ f ∧ f ≤ 2 + Real.sin 1 := by
  have h0 := oscillationFactor_zero Real.sin Real.pi 1
  refine ⟨h0, ?_⟩
  rintro ⟨f, hf, _⟩
  rw [h0] at hf
  exact Option.noConfusion hf

/-- C8 amended: over the reals, for every elapsed time `t` and every period other
than 0, the oscillation factor is the number `2 + sin(sin(2π·t/period))` and lies in
`[2 − sin 1, 2 + sin 1]`.  The range is fixed and strictly positive, and its ends are
within 0.01 of 1.16 and 2.84: `1.15 < 2 − sin 1 < 1.16` and
`2.84 < 2 + sin 1 < 2.85`. -/
theorem oscillationFactor_bounded (t period : ℝ) (h : period ≠ 0) :
    (∃ f : ℝ, oscillationFactor Real.sin Real.pi t period = some f ∧
      f = 2 + Real.sin (Real.sin (2 * Real.pi * t / period)) ∧
      2 - Real.sin 1 ≤ f ∧ f ≤ 2 + Real.sin 1 ∧ 0 < f) ∧
    (115 / 100 : ℝ) < 2 - Real.sin 1 ∧ 2 - Real.sin 1 < 116 / 100 ∧
    (284 / 100 : ℝ) < 2 + Real.sin 1 ∧ 2 + Real.sin 1 < 285 / 100 := by
  have hb := sin_sin_bounds (2 * Real.pi * t / period)
  have h1 := sin_one_enclosure
  refine ⟨⟨_, oscillationFactor_of_ne_zero _ _ _ _ h, rfl, by linarith [hb.1],
    by linarith [hb.2], by linarith [hb.1, h1.2]⟩,
    by linarith [h1.2], by linarith [h1.1], by linarith [h1.1], by linarith [h1.2]⟩

/-- Witness of the amended C8: period 1 and elapsed time 0. -/
theorem oscillationFactor_bounded_witness :
    (1 : ℝ) ≠ 0 ∧
    ∃ f : ℝ, oscillationFactor Real.sin Real.pi 0 1 = some f ∧
      f = 2 + Real.sin (Real.sin (2 * Real.pi * 0 / 1)) ∧
      2 - Real.sin 1 ≤ f ∧ f ≤ 2 + Real.sin 1 ∧ 0 < f :=
  ⟨one_ne_zero, (oscillationFactor_bounded 0 1 one_ne_zero).1⟩

end PrometheusWorkshop
